import Mathlib

/-!
# Verification of `nerfstudio/engine/schedulers.py`

Shallow embedding of the learning-rate schedulers defined in
`nerfstudio/engine/schedulers.py`, together with proofs of the specified
properties.  Each scheduler's `func` closure (the `lr_lambda` handed to
`torch.optim.lr_scheduler.LambdaLR`) is translated into a Lean function from
the step index (a natural number, as supplied by `LambdaLR`) to a multiplier.

Modelling conventions:
* Python float arithmetic is modelled over `ℝ` (or over `ℚ` when every
  operation of a scheduler is rational, which keeps the model computable).
  Literals such as `0.33` denote the exact decimal `33/100`.
* Python raises `ZeroDivisionError` on integer division by zero; divisions
  whose denominator is an integer configuration field are therefore modelled
  in `Except Unit`, with `.error ()` standing for the raised exception.
* `np.searchsorted(a, v, side="left")` is modelled by `bisectLoop`, the exact
  binary search numpy performs (`lo, hi := 0, len`; while `lo < hi`:
  `mid := (lo+hi)/2`; if `a[mid] < v` then `lo := mid+1` else `hi := mid`).
* `np.clip(x, 0, 1)` is `min (max x 0) 1`.
-/

/-- `np.clip x lo hi = min (max x lo) hi`. -/
noncomputable def npClip (x lo hi : ℝ) : ℝ := min (max x lo) hi

/-- The binary-search loop of `np.searchsorted(a, v, side="left")`:
invariant-preserving bisection with `a[mid] < v` sending `lo` to `mid+1`,
otherwise `hi` to `mid`.  Out-of-range reads default to `0` (never exercised
when `hi ≤ a.length`). -/
def bisectLoop (a : List ℕ) (v : ℕ) (lo hi : ℕ) : ℕ :=
  if _h : lo < hi then
    if a.getD ((lo + hi) / 2) 0 < v then bisectLoop a v ((lo + hi) / 2 + 1) hi
    else bisectLoop a v lo ((lo + hi) / 2)
  else lo
termination_by hi - lo
decreasing_by
  · omega
  · omega

/-- `np.searchsorted(a, v, side="left")`: left insertion index of `v` in `a`. -/
def searchsortedLeft (a : List ℕ) (v : ℕ) : ℕ := bisectLoop a v 0 a.length

/-- `MultiStepWarmupSchedulerConfig` from the source, with its defaults
(`warm_up_end=5000`, `milestones=[300000, 400000, 500000]`, `gamma=0.33`). -/
structure MultiStepWarmupSchedulerConfig where
  warm_up_end : ℕ := 5000
  milestones : List ℕ := [300000, 400000, 500000]
  gamma : ℚ := 33/100

/-- The `func` closure of `MultiStepWarmupScheduler.get_scheduler`:
linear warmup `step / warm_up_end` before `warm_up_end`, then
`gamma ** np.searchsorted(milestones, step, side="left")`.
The warmup division is guarded (`ZeroDivisionError` when `warm_up_end = 0`);
the guard is unreachable since `step < warm_up_end` forces `warm_up_end > 0`. -/
def MultiStepWarmupScheduler.func (cfg : MultiStepWarmupSchedulerConfig)
    (step : ℕ) : Except Unit ℚ :=
  if step < cfg.warm_up_end then
    if cfg.warm_up_end = 0 then .error ()
    else .ok ((step : ℚ) / (cfg.warm_up_end : ℚ))
  else
    .ok (cfg.gamma ^ searchsortedLeft cfg.milestones step)

/-- In a `≤`-sorted list, position `i` holds a value `< v` exactly when `i` is
below the number of elements `< v` (the elements `< v` form a prefix). -/
theorem getD_lt_iff_lt_countP (a : List ℕ) (v : ℕ) (ha : a.Sorted (· ≤ ·)) :
    ∀ i, i < a.length → (a.getD i 0 < v ↔ i < a.countP (fun x => x < v)) := by
  induction a with
  | nil => intro i hi; simp at hi
  | cons x t ih =>
    have hx : ∀ y ∈ t, x ≤ y := (List.sorted_cons.mp ha).1
    have ht : t.Sorted (· ≤ ·) := (List.sorted_cons.mp ha).2
    intro i hi
    cases i with
    | zero =>
      simp only [List.getD_cons_zero, List.countP_cons]
      constructor
      · intro hxv
        have : (fun y => decide (y < v)) x = true := by simpa using hxv
        simp [this]
      · intro hpos
        by_contra hxv
        have hvx : v ≤ x := Nat.le_of_not_lt hxv
        have h0 : t.countP (fun y => decide (y < v)) = 0 := by
          rw [List.countP_eq_zero]
          intro y hy
          have : v ≤ y := le_trans hvx (hx y hy)
          simpa using Nat.not_lt.mpr this
        have hb : (fun y => decide (y < v)) x = false := by
          simpa using hxv
        rw [h0] at hpos
        simp [hb] at hpos
    | succ j =>
      simp only [List.getD_cons_succ, List.countP_cons, List.length_cons] at *
      have hj : j < t.length := Nat.lt_of_succ_lt_succ hi
      by_cases hxv : x < v
      · have hb : (fun y => decide (y < v)) x = true := by simpa using hxv
        rw [ih ht j hj]
        simp [hb]
      · have h0 : t.countP (fun y => decide (y < v)) = 0 := by
          rw [List.countP_eq_zero]
          intro y hy
          have : v ≤ y := le_trans (Nat.le_of_not_lt hxv) (hx y hy)
          simpa using Nat.not_lt.mpr this
        have hb : (fun y => decide (y < v)) x = false := by simpa using hxv
        constructor
        · intro hlt
          exfalso
          have := (ih ht j hj).mp hlt
          omega
        · intro h; rw [h0] at h; simp [hb] at h

/-- The bisection loop returns `k = countP (· < v)` whenever the search window
`[lo, hi]` contains `k` and lies within the list. -/
theorem bisectLoop_eq_countP (a : List ℕ) (v : ℕ) (ha : a.Sorted (· ≤ ·)) :
    ∀ n lo hi, hi - lo ≤ n → lo ≤ a.countP (fun x => x < v) →
      a.countP (fun x => x < v) ≤ hi → hi ≤ a.length →
      bisectLoop a v lo hi = a.countP (fun x => x < v) := by
  intro n
  induction n with
  | zero =>
    intro lo hi hn hlo hhi _
    rw [bisectLoop]
    have : ¬ lo < hi := by omega
    simp only [this, dite_false]
    omega
  | succ m ih =>
    intro lo hi hn hlo hhi hlen
    rw [bisectLoop]
    by_cases h : lo < hi
    · simp only [h, dite_true]
      have hmid_lt : (lo + hi) / 2 < a.length := by omega
      by_cases hv : a.getD ((lo + hi) / 2) 0 < v
      · have hk : (lo + hi) / 2 < a.countP (fun x => x < v) :=
          (getD_lt_iff_lt_countP a v ha _ hmid_lt).mp hv
        simp only [hv, if_true]
        exact ih ((lo + hi) / 2 + 1) hi (by omega) (by omega) hhi hlen
      · have hk : a.countP (fun x => x < v) ≤ (lo + hi) / 2 := by
          by_contra hc
          exact hv ((getD_lt_iff_lt_countP a v ha _ hmid_lt).mpr (by omega))
        simp only [hv, if_false]
        exact ih lo ((lo + hi) / 2) (by omega) hlo hk (by omega)
    · simp only [h, dite_false]
      omega

/-- On a `≤`-sorted list, `np.searchsorted(a, v, side="left")` returns the
number of elements strictly less than `v`. -/
theorem searchsortedLeft_eq_countP (a : List ℕ) (v : ℕ)
    (ha : a.Sorted (· ≤ ·)) :
    searchsortedLeft a v = a.countP (fun x => x < v) := by
  unfold searchsortedLeft
  exact bisectLoop_eq_countP a v ha a.length 0 a.length (by omega)
    (Nat.zero_le _) (a.countP_le_length _) le_rfl

/-- `Ramp` enum of `ExponentialDecaySchedulerConfig` (`"linear" | "cosine"`). -/
inductive Ramp where
  | linear
  | cosine
deriving DecidableEq

/-- `ExponentialDecaySchedulerConfig` from the source, with its defaults
(`lr_pre_warmup=1e-8`, `lr_final=None`, `warmup_steps=0`, `max_steps=100000`,
`ramp="cosine"`). -/
structure ExponentialDecaySchedulerConfig where
  lr_pre_warmup : ℝ := 1/100000000
  lr_final : Option ℝ := none
  warmup_steps : ℕ := 0
  max_steps : ℕ := 100000
  ramp : Ramp := .cosine

/-- The `func` closure of `ExponentialDecayScheduler.get_scheduler`.
`lr_final` defaults to `lr_init` when unset.  Warmup (`step < warmup_steps`)
ramps from `lr_pre_warmup` to `lr_init` with a sine or linear ramp; otherwise
`lr = exp(log lr_init * (1-t) + log lr_final * t)` with
`t = clip((step - warmup_steps)/(max_steps - warmup_steps), 0, 1)`.
The returned value is `lr / lr_init`.  The two step-range divisions are
Python integer divisions, so a zero denominator is `.error ()`
(`ZeroDivisionError`); the warmup one is unreachable for `step : ℕ`. -/
noncomputable def ExponentialDecayScheduler.func
    (cfg : ExponentialDecaySchedulerConfig) (lr_init : ℝ) (step : ℕ) :
    Except Unit ℝ :=
  let lr_final := cfg.lr_final.getD lr_init
  if step < cfg.warmup_steps then
    if cfg.warmup_steps = 0 then .error ()
    else
      let lr :=
        match cfg.ramp with
        | .cosine =>
            cfg.lr_pre_warmup + (lr_init - cfg.lr_pre_warmup) *
              Real.sin (0.5 * Real.pi *
                npClip ((step : ℝ) / (cfg.warmup_steps : ℝ)) 0 1)
        | .linear =>
            cfg.lr_pre_warmup +
              (lr_init - cfg.lr_pre_warmup) * (step : ℝ) / (cfg.warmup_steps : ℝ)
      .ok (lr / lr_init)
  else
    if cfg.max_steps = cfg.warmup_steps then .error ()
    else
      let t := npClip (((step : ℝ) - (cfg.warmup_steps : ℝ)) /
        ((cfg.max_steps : ℝ) - (cfg.warmup_steps : ℝ))) 0 1
      .ok (Real.exp (Real.log lr_init * (1 - t) + Real.log lr_final * t) / lr_init)

/-- `CosineDecaySchedulerConfig` from the source, with its defaults
(`warm_up_end=5000`, `learning_rate_alpha=0.05`, `max_steps=300000`). -/
structure CosineDecaySchedulerConfig where
  warm_up_end : ℕ := 5000
  learning_rate_alpha : ℝ := 5/100
  max_steps : ℕ := 300000

/-- The `func` closure of `CosineDecayScheduler.get_scheduler`:
linear warmup `step / warm_up_end`, then
`(cos(pi * progress) + 1)/2 * (1 - alpha) + alpha` with
`progress = (step - warm_up_end)/(max_steps - warm_up_end)`.
Integer divisions by zero are `.error ()`; the warmup one is unreachable. -/
noncomputable def CosineDecayScheduler.func (cfg : CosineDecaySchedulerConfig)
    (step : ℕ) : Except Unit ℝ :=
  if step < cfg.warm_up_end then
    if cfg.warm_up_end = 0 then .error ()
    else .ok ((step : ℝ) / (cfg.warm_up_end : ℝ))
  else
    if cfg.max_steps = cfg.warm_up_end then .error ()
    else
      let alpha := cfg.learning_rate_alpha
      let progress := ((step : ℝ) - (cfg.warm_up_end : ℝ)) /
        ((cfg.max_steps : ℝ) - (cfg.warm_up_end : ℝ))
      .ok ((Real.cos (Real.pi * progress) + 1.0) * 0.5 * (1 - alpha) + alpha)

/-- The `func` closure built in `NeuSScheduler.__init__` from the raw
arguments `(warm_up_end, learning_rate_alpha, max_steps)`; the body is a
verbatim copy of the cosine-decay formula. -/
noncomputable def NeuSScheduler.func (warm_up_end : ℕ)
    (learning_rate_alpha : ℝ) (max_steps : ℕ) (step : ℕ) : Except Unit ℝ :=
  if step < warm_up_end then
    if warm_up_end = 0 then .error ()
    else .ok ((step : ℝ) / (warm_up_end : ℝ))
  else
    if max_steps = warm_up_end then .error ()
    else
      let alpha := learning_rate_alpha
      let progress := ((step : ℝ) - (warm_up_end : ℝ)) /
        ((max_steps : ℝ) - (warm_up_end : ℝ))
      .ok ((Real.cos (Real.pi * progress) + 1.0) * 0.5 * (1 - alpha) + alpha)

/-- `MultiStepSchedulerConfig` from the source, with its defaults
(`max_steps=1000000`, `gamma=0.33`, `milestones=(500000, 750000, 900000)`). -/
structure MultiStepSchedulerConfig where
  max_steps : ℕ := 1000000
  gamma : ℚ := 33/100
  milestones : List ℕ := [500000, 750000, 900000]

/-- Modelled from the spec: `MultiStepScheduler.get_scheduler` returns
`torch.optim.lr_scheduler.MultiStepLR(optimizer, milestones, gamma)`, whose
implementation is not part of this repository.  Per §4.2, the multiplier is
`gamma ^ (number of milestones ≤ step)`, with ties at exact milestone values
counting as reached. -/
def MultiStepScheduler.func (cfg : MultiStepSchedulerConfig) (step : ℕ) : ℚ :=
  cfg.gamma ^ cfg.milestones.countP (fun m => m ≤ step)

/-- `ExponentialSchedulerConfig` from the source, with its defaults
(`decay_rate=0.1`, `max_steps=1000000`).  Its `setup` returns
`torch.optim.lr_scheduler.ExponentialLR(optimizer, decay_rate ** (1.0/max_steps))`. -/
structure ExponentialSchedulerConfig where
  decay_rate : ℝ := 1/10
  max_steps : ℕ := 1000000

/-- Modelled from the spec: `torch.optim.lr_scheduler.ExponentialLR` is not
part of this repository; per §4.6 the multiplier follows geometric decay with
the fixed per-step ratio `decay_rate ^ (1/max_steps)` computed by
`ExponentialSchedulerConfig.setup`, i.e. `multiplier(step) = ratio ^ step`.
The per-step ratio is a Python float power, modelled by `Real.rpow`. -/
noncomputable def ExponentialScheduler.func (cfg : ExponentialSchedulerConfig)
    (step : ℕ) : ℝ :=
  (cfg.decay_rate ^ ((1 : ℝ) / (cfg.max_steps : ℝ))) ^ step

/-- Shared evaluation: the multi-step-warmup multiplier past warmup is
`gamma ^ (count of milestones strictly below the step)`. -/
theorem multiStepWarmup_func_of_warm (cfg : MultiStepWarmupSchedulerConfig)
    (step : ℕ) (hsorted : cfg.milestones.Sorted (· ≤ ·))
    (hw : cfg.warm_up_end ≤ step) :
    MultiStepWarmupScheduler.func cfg step =
      .ok (cfg.gamma ^ cfg.milestones.countP (fun m => m < step)) := by
  unfold MultiStepWarmupScheduler.func
  rw [if_neg (by omega), searchsortedLeft_eq_countP _ _ hsorted]

/-- **C1** (counterexample): with the default configuration
(`warm_up_end=5000`, `milestones=[300000, 400000, 500000]`, `gamma=0.33`),
the multiplier at step `300000` is *not* `0.33 ^ 1`: the left-biased
`np.searchsorted` returns index `0` at a step exactly equal to a milestone,
so the multiplier there is still `1.0`. -/
theorem multiStepWarmup_at_milestone_ne_gamma_pow_one :
    MultiStepWarmupScheduler.func {} 300000 ≠ .ok ((33/100 : ℚ) ^ 1) := by
  rw [multiStepWarmup_func_of_warm {} 300000 (by decide) (by norm_num)]
  have hc : ([300000, 400000, 500000].countP
      (fun m => decide (m < 300000))) = 0 := by decide
  intro h
  rw [Except.ok.injEq] at h
  rw [show ({} : MultiStepWarmupSchedulerConfig).milestones =
    [300000, 400000, 500000] from rfl] at h
  rw [hc] at h
  norm_num at h

/-- **C1** (amended): with the default configuration, the multiplier at step
`300000` (exactly the first milestone) equals `0.33 ^ 0 = 1.0`, just like the
multiplier at step `299999`; the first decay only takes effect at `300001`. -/
theorem multiStepWarmup_at_milestone_eq_one :
    MultiStepWarmupScheduler.func {} 300000 = .ok 1 ∧
    MultiStepWarmupScheduler.func {} 299999 = .ok 1 := by
  constructor
  · rw [multiStepWarmup_func_of_warm {} 300000 (by decide) (by norm_num)]
    have hc : ([300000, 400000, 500000].countP
        (fun m => decide (m < 300000))) = 0 := by decide
    rw [show ({} : MultiStepWarmupSchedulerConfig).milestones =
      [300000, 400000, 500000] from rfl, hc]
    norm_num
  · rw [multiStepWarmup_func_of_warm {} 299999 (by decide) (by norm_num)]
    have hc : ([300000, 400000, 500000].countP
        (fun m => decide (m < 299999))) = 0 := by decide
    rw [show ({} : MultiStepWarmupSchedulerConfig).milestones =
      [300000, 400000, 500000] from rfl, hc]
    norm_num

/-- **C2**: for sorted milestones and any step at or past `warm_up_end`, the
multi-step-warmup multiplier is `gamma` raised to the number of milestones
strictly less than the step; a step exactly equal to a milestone does not
count it as passed. -/
theorem multiStepWarmup_func_eq_gamma_pow_countP
    (cfg : MultiStepWarmupSchedulerConfig) (step : ℕ)
    (hsorted : cfg.milestones.Sorted (· ≤ ·))
    (hw : cfg.warm_up_end ≤ step) :
    MultiStepWarmupScheduler.func cfg step =
      .ok (cfg.gamma ^ cfg.milestones.countP (fun m => m < step)) :=
  multiStepWarmup_func_of_warm cfg step hsorted hw

/-- **C2** (witness): at step `300001`, one milestone (`300000`) is strictly
below the step, so the default-configuration multiplier is `0.33 ^ 1`. -/
theorem multiStepWarmup_func_eq_gamma_pow_countP_witness :
    MultiStepWarmupScheduler.func {} 300001 = .ok ((33/100 : ℚ) ^ 1) := by
  have h := multiStepWarmup_func_eq_gamma_pow_countP {} 300001
    (by decide) (by norm_num)
  rw [h]
  have hc : ([300000, 400000, 500000].countP
      (fun m => decide (m < 300001))) = 1 := by decide
  rw [show ({} : MultiStepWarmupSchedulerConfig).milestones =
    [300000, 400000, 500000] from rfl, hc]

/-- **C3**: the plain multi-step multiplier is `gamma` raised to the number of
milestones `≤ step` (ties count as reached); with the default milestones
`(500000, 750000, 900000)` and `gamma = 0.33`: `multiplier(0) = 1`,
`multiplier(500000) = 0.33`, `multiplier(750000) = 0.33 ^ 2`,
`multiplier(1000000) = 0.33 ^ 3`. -/
theorem multiStep_func_eq_gamma_pow_count :
    (∀ (cfg : MultiStepSchedulerConfig) (step : ℕ),
      MultiStepScheduler.func cfg step =
        cfg.gamma ^ cfg.milestones.countP (fun m => m ≤ step)) ∧
    MultiStepScheduler.func {} 0 = 1 ∧
    MultiStepScheduler.func {} 500000 = 33/100 ∧
    MultiStepScheduler.func {} 750000 = (33/100 : ℚ) ^ 2 ∧
    MultiStepScheduler.func {} 1000000 = (33/100 : ℚ) ^ 3 := by
  refine ⟨fun cfg step => rfl, ?_, ?_, ?_, ?_⟩ <;>
    · unfold MultiStepScheduler.func
      rw [show ({} : MultiStepSchedulerConfig).milestones =
        [500000, 750000, 900000] from rfl,
        show ({} : MultiStepSchedulerConfig).gamma = 33/100 from rfl]
      norm_num [List.countP_cons]

/-- Shared evaluation: past `max_steps` (with `warmup_steps < max_steps`), the
progress clamps to `1` and the exponential-decay multiplier is
`exp(log lr_final) / lr_init`. -/
theorem expDecay_func_of_ge_max (cfg : ExponentialDecaySchedulerConfig)
    (lr_init : ℝ) (step : ℕ) (hwm : cfg.warmup_steps < cfg.max_steps)
    (hs : cfg.max_steps ≤ step) :
    ExponentialDecayScheduler.func cfg lr_init step =
      .ok (Real.exp (Real.log (cfg.lr_final.getD lr_init)) / lr_init) := by
  unfold ExponentialDecayScheduler.func
  rw [if_neg (by omega), if_neg (by omega)]
  have hden : (0 : ℝ) < (cfg.max_steps : ℝ) - (cfg.warmup_steps : ℝ) := by
    rw [sub_pos]
    exact_mod_cast hwm
  have hnum : ((cfg.max_steps : ℝ) - (cfg.warmup_steps : ℝ)) ≤
      ((step : ℝ) - (cfg.warmup_steps : ℝ)) := by
    have : (cfg.max_steps : ℝ) ≤ (step : ℝ) := by exact_mod_cast hs
    linarith
  have hone : (1 : ℝ) ≤ ((step : ℝ) - (cfg.warmup_steps : ℝ)) /
      ((cfg.max_steps : ℝ) - (cfg.warmup_steps : ℝ)) :=
    (le_div_iff₀ hden).mpr (by linarith)
  have ht : npClip (((step : ℝ) - (cfg.warmup_steps : ℝ)) /
      ((cfg.max_steps : ℝ) - (cfg.warmup_steps : ℝ))) 0 1 = 1 := by
    unfold npClip
    rw [max_eq_left (le_trans zero_le_one hone)]
    exact min_eq_right hone
  simp only [ht]
  ring_nf

/-- **C4**: with `warmup_steps < max_steps`, for every step `≥ max_steps` the
exponential-decay-with-warmup multiplier equals the multiplier at `max_steps`
itself, namely `lr_final / lr_init` (the schedule is constant past
`max_steps`). -/
theorem expDecay_flat_past_max (cfg : ExponentialDecaySchedulerConfig)
    (lr_init : ℝ) (step : ℕ) (hwm : cfg.warmup_steps < cfg.max_steps)
    (hs : cfg.max_steps ≤ step) (hf : 0 < cfg.lr_final.getD lr_init) :
    ExponentialDecayScheduler.func cfg lr_init step =
      ExponentialDecayScheduler.func cfg lr_init cfg.max_steps ∧
    ExponentialDecayScheduler.func cfg lr_init step =
      .ok (cfg.lr_final.getD lr_init / lr_init) := by
  constructor
  · rw [expDecay_func_of_ge_max cfg lr_init step hwm hs,
      expDecay_func_of_ge_max cfg lr_init cfg.max_steps hwm le_rfl]
  · rw [expDecay_func_of_ge_max cfg lr_init step hwm hs, Real.exp_log hf]

/-- **C4** (witness): with `warmup_steps=100`, `max_steps=1000`,
`lr_final=0.0001`, `lr_init=0.01`, the multiplier at step `2000` equals the
multiplier at step `1000`, namely `0.0001 / 0.01`. -/
theorem expDecay_flat_past_max_witness :
    (ExponentialDecayScheduler.func
        ⟨1/100000000, some (1/10000), 100, 1000, .linear⟩ (1/100) 2000 =
      ExponentialDecayScheduler.func
        ⟨1/100000000, some (1/10000), 100, 1000, .linear⟩ (1/100) 1000) ∧
    ExponentialDecayScheduler.func
        ⟨1/100000000, some (1/10000), 100, 1000, .linear⟩ (1/100) 2000 =
      .ok ((1/10000 : ℝ) / (1/100)) := by
  have h := expDecay_flat_past_max
    ⟨1/100000000, some (1/10000), 100, 1000, .linear⟩ (1/100) 2000
    (by norm_num) (by norm_num) (by norm_num)
  exact ⟨h.1, h.2⟩

/-- **C5**: when `lr_final` is unset it defaults to `lr_init`, so past warmup
the decay phase is flat: for positive `lr_init`, a valid step range
(`warmup_steps < max_steps`, the §3 config invariant), and any
`step ≥ warmup_steps`, the multiplier is exactly `1`. -/
theorem expDecay_flat_when_lr_final_none (cfg : ExponentialDecaySchedulerConfig)
    (lr_init : ℝ) (step : ℕ) (hnone : cfg.lr_final = none)
    (hli : 0 < lr_init) (hwm : cfg.warmup_steps < cfg.max_steps)
    (hs : cfg.warmup_steps ≤ step) :
    ExponentialDecayScheduler.func cfg lr_init step = .ok 1 := by
  unfold ExponentialDecayScheduler.func
  rw [if_neg (by omega), if_neg (by omega), hnone]
  have harg : ∀ t : ℝ,
      Real.log lr_init * (1 - t) + Real.log ((none : Option ℝ).getD lr_init) * t
        = Real.log lr_init := by
    intro t
    simp only [Option.getD_none]
    ring
  simp only [harg]
  rw [Real.exp_log hli, div_self (ne_of_gt hli)]

/-- **C5** (witness): with the default configuration except
`warmup_steps=100`, `lr_final` unset and `lr_init=0.01`, the multiplier at
step `600` is `1`. -/
theorem expDecay_flat_when_lr_final_none_witness :
    ExponentialDecayScheduler.func ⟨1/100000000, none, 100, 100000, .cosine⟩
      (1/100) 600 = .ok 1 :=
  expDecay_flat_when_lr_final_none ⟨1/100000000, none, 100, 100000, .cosine⟩
    (1/100) 600 rfl (by norm_num) (by norm_num) (by norm_num)

/-- **C8**: if `warmup_steps = max_steps`, every evaluation at a step
`≥ warmup_steps` takes the decay branch and divides by
`max_steps - warmup_steps = 0`, raising `ZeroDivisionError` (modelled as
`.error ()`); the library performs no validation and the fault surfaces at
schedule-evaluation time. -/
theorem expDecay_div_by_zero_when_warmup_eq_max
    (cfg : ExponentialDecaySchedulerConfig) (lr_init : ℝ) (step : ℕ)
    (heq : cfg.warmup_steps = cfg.max_steps) (hs : cfg.warmup_steps ≤ step) :
    ExponentialDecayScheduler.func cfg lr_init step = .error () := by
  unfold ExponentialDecayScheduler.func
  rw [if_neg (by omega), if_pos heq.symm]

/-- **C8** (witness): with `warmup_steps = max_steps = 100`, evaluation at
step `100` faults. -/
theorem expDecay_div_by_zero_when_warmup_eq_max_witness :
    ExponentialDecayScheduler.func ⟨1/100000000, none, 100, 100, .cosine⟩
      (1/100) 100 = .error () :=
  expDecay_div_by_zero_when_warmup_eq_max
    ⟨1/100000000, none, 100, 100, .cosine⟩ (1/100) 100 rfl (by norm_num)

/-- **C10**: with the default `warmup_steps = 0` and a positive `max_steps`,
the warmup branch (`step < 0`) is unreachable for every `step : ℕ`, the
division `step / warmup_steps` is never evaluated, and evaluation always
returns a value (no `ZeroDivisionError`). -/
theorem expDecay_no_fault_when_warmup_zero
    (cfg : ExponentialDecaySchedulerConfig) (lr_init : ℝ) (step : ℕ)
    (h0 : cfg.warmup_steps = 0) (hm : 0 < cfg.max_steps) :
    ∃ r : ℝ, ExponentialDecayScheduler.func cfg lr_init step = .ok r := by
  unfold ExponentialDecayScheduler.func
  rw [if_neg (by omega), if_neg (by omega)]
  exact ⟨_, rfl⟩

/-- **C10** (witness): with the default configuration (`warmup_steps=0`,
`max_steps=100000`), evaluation at step `0` returns a value. -/
theorem expDecay_no_fault_when_warmup_zero_witness :
    ∃ r : ℝ, ExponentialDecayScheduler.func {} (1/100) 0 = .ok r :=
  expDecay_no_fault_when_warmup_zero {} (1/100) 0 rfl (by norm_num)

/-- **C6**: with the default cosine-decay configuration (`warm_up_end=5000`,
`learning_rate_alpha=0.05`, `max_steps=300000`): `multiplier(0) = 0`,
`multiplier(5000) = 1`, and `multiplier(300000) = alpha = 0.05`. -/
theorem cosineDecay_default_values :
    CosineDecayScheduler.func {} 0 = .ok 0 ∧
    CosineDecayScheduler.func {} 5000 = .ok 1 ∧
    CosineDecayScheduler.func {} 300000 = .ok (5/100) := by
  unfold CosineDecayScheduler.func
  refine ⟨?_, ?_, ?_⟩
  · rw [if_pos (by norm_num), if_neg (by norm_num)]
    norm_num
  · rw [if_neg (by norm_num), if_neg (by norm_num)]
    have hp : ((5000 : ℕ) : ℝ) -
        (({} : CosineDecaySchedulerConfig).warm_up_end : ℝ) = 0 := by
      norm_num [show ({} : CosineDecaySchedulerConfig).warm_up_end = 5000
        from rfl]
    simp only [hp, zero_div, mul_zero, Real.cos_zero]
    norm_num [show ({} : CosineDecaySchedulerConfig).learning_rate_alpha = 5/100
      from rfl]
  · rw [if_neg (by norm_num), if_neg (by norm_num)]
    have hp : (((300000 : ℕ) : ℝ) -
          (({} : CosineDecaySchedulerConfig).warm_up_end : ℝ)) /
        ((({} : CosineDecaySchedulerConfig).max_steps : ℝ) -
          (({} : CosineDecaySchedulerConfig).warm_up_end : ℝ)) = 1 := by
      norm_num [show ({} : CosineDecaySchedulerConfig).warm_up_end = 5000
        from rfl, show ({} : CosineDecaySchedulerConfig).max_steps = 300000
        from rfl]
    simp only [hp, mul_one, Real.cos_pi]
    norm_num [show ({} : CosineDecaySchedulerConfig).learning_rate_alpha = 5/100
      from rfl]

/-- **C9**: the step-to-multiplier function built by `NeuSScheduler.__init__`
coincides with the one built by `CosineDecayScheduler.get_scheduler` from a
`CosineDecaySchedulerConfig` carrying the same `warm_up_end`,
`learning_rate_alpha` and `max_steps`, at every step. -/
theorem neus_eq_cosineDecay (warm_up_end : ℕ) (learning_rate_alpha : ℝ)
    (max_steps : ℕ) (step : ℕ) :
    NeuSScheduler.func warm_up_end learning_rate_alpha max_steps step =
      CosineDecayScheduler.func
        ⟨warm_up_end, learning_rate_alpha, max_steps⟩ step := rfl

/-- **C7**: the bare exponential schedule has per-step ratio
`decay_rate ^ (1/max_steps)`, so after `max_steps` steps the cumulative
multiplier is exactly `decay_rate`, and after `2 * max_steps` steps it is
`decay_rate ^ 2`. -/
theorem exponential_cumulative_at_max (d : ℝ) (m : ℕ) (hd : 0 ≤ d)
    (hm : 0 < m) :
    ExponentialScheduler.func ⟨d, m⟩ m = d ∧
    ExponentialScheduler.func ⟨d, m⟩ (2 * m) = d ^ 2 := by
  have hm' : (m : ℝ) ≠ 0 := Nat.cast_ne_zero.mpr hm.ne'
  unfold ExponentialScheduler.func
  constructor
  · rw [← Real.rpow_natCast (d ^ ((1 : ℝ) / ((m : ℕ) : ℝ))) m,
      ← Real.rpow_mul hd]
    rw [show (1 : ℝ) / (m : ℝ) * (m : ℕ) = 1 by field_simp]
    exact Real.rpow_one d
  · rw [← Real.rpow_natCast (d ^ ((1 : ℝ) / ((m : ℕ) : ℝ))) (2 * m),
      ← Real.rpow_mul hd]
    rw [show (1 : ℝ) / (m : ℝ) * ((2 * m : ℕ) : ℝ) = 2 by push_cast; field_simp]
    rw [show (2 : ℝ) = ((2 : ℕ) : ℝ) by norm_num, Real.rpow_natCast]

/-- **C7** (witness): with `decay_rate=0.1` and `max_steps=1000`,
`multiplier(1000) = 0.1` and `multiplier(2000) = 0.01`. -/
theorem exponential_cumulative_at_max_witness :
    ExponentialScheduler.func ⟨1/10, 1000⟩ 1000 = 1/10 ∧
    ExponentialScheduler.func ⟨1/10, 1000⟩ 2000 = 1/100 := by
  have h := exponential_cumulative_at_max (1/10) 1000 (by norm_num)
    (by norm_num)
  refine ⟨h.1, ?_⟩
  have h2 := h.2
  norm_num at h2 ⊢
  exact h2
